import Mathlib

/-!
# Verification of the GitHub leak-scanner monitor (`src/monitor.js`)

Shallow embedding of the `Monitor` class: the per-item analysis pipeline
(`analyzeContent`), the tick orchestration (`check`), the two source
connectors (`scanCodeSearch`, `scanGists`) and the start/stop run-state
transitions.  Network calls and the external detector module
(`scanForDomains` / `detectCredentials`, required by the core as two pure
functions) are parameters of the embedding: fallible calls are modelled as
`Except String` computations, exactly mirroring the `try`/`catch`
boundaries of the source.
-/

namespace LeakScanner

/-- Character-list substring test: `needle` occurs contiguously in the
haystack. -/
def charsInfix (needle : List Char) : List Char → Bool
  | [] => needle.isEmpty
  | c :: rest => needle.isPrefixOf (c :: rest) || charsInfix needle rest

/-- JS `haystack.includes(needle)`: substring containment. -/
def strIncludes (haystack needle : String) : Bool :=
  charsInfix needle.toList haystack.toList

/-- A code-search result item as constructed in `scanCodeSearch`
(type tag code, with repository, path, url, contentUrl). -/
structure CodeItem where
  repository : String
  path : String
  url : String
  contentUrl : Option String
  deriving Repr, DecidableEq

/-- A gist file item as constructed in `scanGists`
(type tag gist, with id, filename, url, content); `content` is `Option`
because the API may omit the inline body (JS `undefined`). -/
structure GistItem where
  id : String
  filename : String
  url : String
  content : Option String
  deriving Repr, DecidableEq

/-- The tagged union dispatched on by `analyzeContent` (`item.type`). -/
inductive CandidateItem where
  | code (c : CodeItem)
  | gist (g : GistItem)
  deriving Repr, DecidableEq

/-- Accessor for `item.url`: both variants carry a display URL. -/
def CandidateItem.url : CandidateItem → String
  | .code c => c.url
  | .gist g => g.url

/-- A Finding, as pushed by `analyzeContent` (lines 199–208 of
`monitor.js`). -/
structure Finding where
  timestamp : String
  type : String
  source : String
  path : String
  url : String
  matchedDomains : List String
  credentials : List String
  snippet : String
  deriving Repr, DecidableEq

/-- The external collaborators of the core: the HTTP content fetch and the
two detector functions.  Each may raise (JS exceptions), hence
`Except String`. -/
structure Env where
  now : String
  fetch : String → Except String (Option String)
  scanForDomains : String → List String → Except String (List String)
  detectCredentials : String → Except String (List String)

/-- Build an `Env` from three total functions (collaborators that never
throw). -/
def Env.ofPure (now : String) (fetch : String → Option String)
    (scan : String → List String → List String)
    (detect : String → List String) : Env where
  now := now
  fetch := fun u => .ok (fetch u)
  scanForDomains := fun c ds => .ok (scan c ds)
  detectCredentials := fun c => .ok (detect c)

/-- The `item.type` tag string. -/
def CandidateItem.typeTag : CandidateItem → String
  | .code _ => "code"
  | .gist _ => "gist"

/-- JS `item.repository || item.id`: the origin identifier used for the
`source` field of a Finding. -/
def CandidateItem.sourceId : CandidateItem → String
  | .code c => c.repository
  | .gist g => g.id

/-- JS `item.path || item.filename`. -/
def CandidateItem.pathName : CandidateItem → String
  | .code c => c.path
  | .gist g => g.filename

/-- Content resolution (lines 182–190): a code item with a truthy
`contentUrl` triggers one fetch whose `content` field (defaulted to the
empty string) becomes the content; the inline `content` of a gist item
(defaulted to the empty string) is used directly; any other item
resolves to the empty string.  A JS `undefined` or empty-string locator
is falsy, hence the `u = ""` test. -/
def resolveContent (env : Env) : CandidateItem → Except String String
  | .code c =>
    match c.contentUrl with
    | some u =>
      if u = "" then .ok ""
      else
        match env.fetch u with
        | .error e => .error e
        | .ok body => .ok (body.getD "")
    | none => .ok ""
  | .gist g => .ok (g.content.getD "")

/-- The URL half of the domain condition (line 195):
`item.url && this.domains.some(d => item.url.includes(d))`. -/
def urlDomainMatch (domains : List String) (item : CandidateItem) : Bool :=
  (item.url != "") && domains.any (fun d => strIncludes item.url d)

/-- The `try` block body of `analyzeContent` (lines 181–210): resolve
content, run `scanForDomains`, and when the domain condition holds run
`detectCredentials`; push one Finding when credentials are present. -/
def analyzeContentE (env : Env) (domains : List String) (item : CandidateItem) :
    Except String (List Finding) :=
  match resolveContent env item with
  | .error e => .error e
  | .ok content =>
    match env.scanForDomains content domains with
    | .error e => .error e
    | .ok domainMatches =>
      if domainMatches.length > 0 || urlDomainMatch domains item then
        match env.detectCredentials content with
        | .error e => .error e
        | .ok credentials =>
          if credentials.length > 0 then
            .ok [{ timestamp := env.now
                   type := item.typeTag
                   source := item.sourceId
                   path := item.pathName
                   url := item.url
                   matchedDomains := domainMatches
                   credentials := credentials
                   snippet := content.take 200 }]
          else .ok []
      else .ok []

/-- Full `analyzeContent` (lines 178–216): the `catch` swallows any error and
the already-empty `findings` list is returned. -/
def analyzeContent (env : Env) (domains : List String) (item : CandidateItem) :
    List Finding :=
  match analyzeContentE env domains item with
  | .ok fs => fs
  | .error _ => []

/-- Resolved content when every collaborator is total (the pure pipeline
view used to state the decision rule). -/
def resolveContentPure (fetch : String → Option String) : CandidateItem → String
  | .code c =>
    match c.contentUrl with
    | some u => if u = "" then "" else (fetch u).getD ""
    | none => ""
  | .gist g => g.content.getD ""

/-- The per-connector analysis loop inside `check` (lines 68–75 and
88–95): walk the items, and for each item with a non-empty analysis
result add its length to `threatsFound` and append it to the accumulated
findings (alerting is output only). -/
def processItems (env : Env) (domains : List String) :
    List CandidateItem → Nat → List Finding → Nat × List Finding
  | [], threats, acc => (threats, acc)
  | item :: rest, threats, acc =>
    let fs := analyzeContent env domains item
    if fs.length > 0 then
      processItems env domains rest (threats + fs.length) (acc ++ fs)
    else
      processItems env domains rest threats acc

/-- The per-tick summary counters (`totalScanned` / `threatsFound` of
`check`, logged at line 100). -/
structure TickReport where
  itemsScanned : Nat
  findingsCount : Nat
  deriving Repr, DecidableEq

/-- The tick body `check` (lines 53–101), with each connector call abstracted as an
`Except` outcome: each connector runs inside its own `try`/`catch`; a
failure is logged and contributes nothing, and the items of a successful
connector are analyzed in order.  Returns the tick summary together with
the updated accumulated findings (`this.findings`). -/
def check (env : Env) (domains : List String)
    (codeRes gistRes : Except String (List CandidateItem))
    (accFindings : List Finding) : TickReport × List Finding :=
  let afterCode : Nat × Nat × List Finding :=
    match codeRes with
    | .ok items =>
      let (t, a) := processItems env domains items 0 accFindings
      (items.length, t, a)
    | .error _ => (0, 0, accFindings)
  let afterGists : Nat × Nat × List Finding :=
    match gistRes with
    | .ok items =>
      let (t, a) := processItems env domains items afterCode.2.1 afterCode.2.2
      (afterCode.1 + items.length, t, a)
    | .error _ => afterCode
  (⟨afterGists.1, afterGists.2.1⟩, afterGists.2.2)

/-- A code-search request as issued by `scanCodeSearch`: the `q` string
and the `per_page` parameter. -/
structure SearchReq where
  q : String
  perPage : Nat
  deriving Repr, DecidableEq

/-- A raw item of a code-search response (`response.data.items`). -/
structure RawCodeItem where
  repoFullName : String
  path : String
  htmlUrl : String
  url : String
  deriving Repr, DecidableEq

/-- A code-search response: `response.data.items` may be absent
(`response.data.items || []`). -/
structure SearchResp where
  items : Option (List RawCodeItem)
  deriving Repr, DecidableEq

/-- The CodeResult built from a raw search item (lines 115–121). -/
def toCodeItem (raw : RawCodeItem) : CandidateItem :=
  .code ⟨raw.repoFullName, raw.path, raw.htmlUrl, some raw.url⟩

/-- One iteration of the domain loop of `scanCodeSearch` (lines 107–143): the
`"<domain> password"` query, then the `"<domain> api_key"` query, both
with `per_page: 30`; the `try` wraps the pair, so a failure of the first
query yields no items and skips the second, while a failure of the second
keeps the items of the first query.  Returns the items pushed and the requests
actually issued, in order. -/
def scanDomain (search : SearchReq → Except String SearchResp)
    (domain : String) : List CandidateItem × List SearchReq :=
  let q1 : SearchReq := ⟨domain ++ " password", 30⟩
  match search q1 with
  | .error _ => ([], [q1])
  | .ok resp1 =>
    let items1 := (resp1.items.getD []).map toCodeItem
    let q2 : SearchReq := ⟨domain ++ " api_key", 30⟩
    match search q2 with
    | .error _ => (items1, [q1, q2])
    | .ok resp2 => (items1 ++ (resp2.items.getD []).map toCodeItem, [q1, q2])

/-- Full `scanCodeSearch` (lines 103–147): the domain loop, concatenating
the pushed items of each domain; also returns the full request log. -/
def scanCodeSearch (search : SearchReq → Except String SearchResp) :
    List String → List CandidateItem × List SearchReq
  | [] => ([], [])
  | d :: rest =>
    let (items, reqs) := scanDomain search d
    let (items2, reqs2) := scanCodeSearch search rest
    (items ++ items2, reqs ++ reqs2)

/-- A gist-listing request (`/gists/public` with `per_page`). -/
structure GistReq where
  perPage : Nat
  deriving Repr, DecidableEq

/-- One file entry of a returned gist (`Object.entries(gist.files)`);
`content` may be absent. -/
structure RawGistFile where
  filename : String
  content : Option String
  deriving Repr, DecidableEq

/-- A raw gist of the listing response. -/
structure RawGist where
  id : String
  htmlUrl : String
  files : List RawGistFile
  deriving Repr, DecidableEq

/-- The gist connector `scanGists` (lines 149–176): one `/gists/public` fetch with
`per_page: 30` and no domain parameter; every file of every returned gist
becomes one GistResult with inline content; the `catch` turns any failure
into the (empty) `results`.  Returns the items and the requests issued. -/
def scanGists (getGists : GistReq → Except String (List RawGist)) :
    List CandidateItem × List GistReq :=
  let req : GistReq := ⟨30⟩
  match getGists req with
  | .error _ => ([], [req])
  | .ok gists =>
    (gists.flatMap (fun g =>
      g.files.map (fun f => .gist ⟨g.id, f.filename, g.htmlUrl, f.content⟩)),
     [req])

/-- The scheduling-relevant run state of the Monitor: the `isRunning`
flag, whether `intervalId` holds an armed timer, how many ticks have
executed, and whether `printSummary` ran. -/
structure RunState where
  isRunning : Bool
  timerArmed : Bool
  ticksExecuted : Nat
  summaryPrinted : Bool
  deriving Repr, DecidableEq

/-- The state at construction (lines 11–13: not running, no timer, no
tick yet). -/
def initState : RunState :=
  ⟨false, false, 0, false⟩

/-- Model of `start` (lines 26–44): set `isRunning`, run one tick immediately;
with `once` print the summary and return (no timer), otherwise arm the
recurring `setInterval` timer. -/
def start (once : Bool) (s : RunState) : RunState :=
  let ticked : RunState :=
    { s with isRunning := true, ticksExecuted := s.ticksExecuted + 1 }
  if once then { ticked with summaryPrinted := true }
  else { ticked with timerArmed := true }

/-- Model of `stop` (lines 46–51): clear `isRunning` and cancel the timer when one
is armed. -/
def stop (s : RunState) : RunState :=
  { s with isRunning := false,
           timerArmed := if s.timerArmed then false else s.timerArmed }

/-- One firing opportunity of the recurring timer: an armed timer
executes a tick, an unarmed one does nothing. -/
def timerFire (s : RunState) : RunState :=
  if s.timerArmed then { s with ticksExecuted := s.ticksExecuted + 1 } else s

/-- All findings of a list of items, in order (what the tick appends). -/
def analyzeAll (env : Env) (domains : List String)
    (items : List CandidateItem) : List Finding :=
  items.flatMap (fun item => analyzeContent env domains item)

lemma resolveContent_ofPure (now : String) (fetch : String → Option String)
    (scan : String → List String → List String) (detect : String → List String)
    (item : CandidateItem) :
    resolveContent (Env.ofPure now fetch scan detect) item =
      .ok (resolveContentPure fetch item) := by
  cases item with
  | code c =>
    obtain ⟨r, p, uu, cu⟩ := c
    cases cu with
    | none => rfl
    | some u =>
      by_cases hu : u = "" <;>
        simp [resolveContent, resolveContentPure, Env.ofPure, hu]
  | gist g => rfl

lemma analyzeContentE_ofPure (now : String) (fetch : String → Option String)
    (scan : String → List String → List String) (detect : String → List String)
    (domains : List String) (item : CandidateItem) :
    analyzeContentE (Env.ofPure now fetch scan detect) domains item =
      (let content := resolveContentPure fetch item
       let dm := scan content domains
       if dm.length > 0 || urlDomainMatch domains item then
         if (detect content).length > 0 then
           .ok [{ timestamp := now
                  type := item.typeTag
                  source := item.sourceId
                  path := item.pathName
                  url := item.url
                  matchedDomains := dm
                  credentials := detect content
                  snippet := content.take 200 }]
         else .ok []
       else .ok []) := by
  unfold analyzeContentE
  rw [resolveContent_ofPure]
  rfl

/-- C1 — Pipeline decision rule: with total collaborators, an item yields
a Finding iff (`scanForDomains` on its resolved content is non-empty, or
the display URL contains a watched domain) and `detectCredentials` on
that content is non-empty; if either conjunct fails, no Finding is
produced. -/
theorem finding_iff_domains_and_credentials (now : String)
    (fetch : String → Option String)
    (scan : String → List String → List String) (detect : String → List String)
    (domains : List String) (item : CandidateItem) :
    analyzeContent (Env.ofPure now fetch scan detect) domains item ≠ [] ↔
      ((scan (resolveContentPure fetch item) domains ≠ [] ∨
          urlDomainMatch domains item = true) ∧
        detect (resolveContentPure fetch item) ≠ []) := by
  unfold analyzeContent
  rw [analyzeContentE_ofPure]
  simp only []
  by_cases h1 :
      (scan (resolveContentPure fetch item) domains).length > 0 ||
        urlDomainMatch domains item
  · by_cases h2 : (detect (resolveContentPure fetch item)).length > 0
    · simp only [h1, h2, if_true, if_pos]
      simp only [Bool.or_eq_true, decide_eq_true_eq] at h1
      constructor
      · intro _
        refine ⟨?_, ?_⟩
        · rcases h1 with h1 | h1
          · exact Or.inl (List.length_pos.mp h1)
          · exact Or.inr h1
        · exact List.length_pos.mp h2
      · intro _
        simp
    · simp only [h1, if_true, h2, if_neg, if_false]
      simp only [not_lt, Nat.le_zero, List.length_eq_zero] at h2
      simp [h2]
  · simp only [h1, if_false]
    simp only [Bool.or_eq_true, decide_eq_true_eq, not_or] at h1
    obtain ⟨ha, hb⟩ := h1
    simp only [not_lt, Nat.le_zero, List.length_eq_zero] at ha
    simp [ha, hb]

lemma analyzeContentE_ok_length (env : Env) (domains : List String)
    (item : CandidateItem) (fs : List Finding)
    (h : analyzeContentE env domains item = .ok fs) : fs.length ≤ 1 := by
  unfold analyzeContentE at h
  split at h
  · simp at h
  · split at h
    · simp at h
    · split at h
      · split at h
        · simp at h
        · split at h
          · cases h
            simp
          · cases h
            simp
      · cases h
        simp

/-- C10 — A single invocation of the analysis pipeline returns at most
one Finding: `analyzeContent` always returns a list of length 0 or 1. -/
theorem analyzeContent_at_most_one (env : Env) (domains : List String)
    (item : CandidateItem) :
    (analyzeContent env domains item).length ≤ 1 := by
  unfold analyzeContent
  split
  · next fs h => exact analyzeContentE_ok_length env domains item fs h
  · next e h => simp

set_option maxRecDepth 100000

/-- A concrete pure environment: domain scan by substring filter,
credential detection by a single password-assignment signature, no
fetch body. -/
def exEnv : Env :=
  Env.ofPure "t0" (fun _ => none)
    (fun c ds => ds.filter (fun d => strIncludes c d))
    (fun c => if strIncludes c "password" then ["Password Assignment"] else [])

/-- A gist item whose display URL contains the watched domain while its
body does not (the URL-based domain-match path of §8). -/
def exItem : CandidateItem :=
  .gist ⟨"g1", "notes.txt", "https://github.com/foo/acme.com-configs",
         some "password = hunter2"⟩

/-- C3 counterexample — the pipeline produces a Finding for `exItem` via
the URL-based domain-match path, and the `matchedDomains` of that Finding is
empty (the code stores the body-scan result, which is empty on this
path), refuting the claim that every Finding has a non-empty
`matchedDomains` set. -/
theorem url_path_finding_has_empty_matchedDomains :
    (analyzeContent exEnv ["acme.com"] exItem).length = 1 ∧
    (analyzeContent exEnv ["acme.com"] exItem).map Finding.matchedDomains =
      [[]] ∧
    (analyzeContent exEnv ["acme.com"] exItem).map Finding.credentials =
      [["Password Assignment"]] := by
  set_option maxRecDepth 10000 in decide

/-- C3 amended — every Finding constructed by the pipeline has a
non-empty `credentials` set, and its `matchedDomains` is non-empty or
the Finding was produced via the URL-based domain-match path (in which
case `matchedDomains` may be empty). -/
theorem finding_nonempty_fields (env : Env) (domains : List String)
    (item : CandidateItem) (f : Finding)
    (h : f ∈ analyzeContent env domains item) :
    f.credentials ≠ [] ∧
      (f.matchedDomains ≠ [] ∨ urlDomainMatch domains item = true) := by
  unfold analyzeContent at h
  split at h
  · next fs heq =>
    unfold analyzeContentE at heq
    split at heq
    · simp at heq
    · split at heq
      · simp at heq
      · next dm =>
        split at heq
        · next hcond =>
          split at heq
          · simp at heq
          · next creds =>
            split at heq
            · next hlen =>
              cases heq
              simp only [List.mem_singleton] at h
              subst h
              refine ⟨?_, ?_⟩
              · simpa [← List.length_pos] using hlen
              · simp only [Bool.or_eq_true, decide_eq_true_eq] at hcond
                rcases hcond with hc | hc
                · exact Or.inl (List.length_pos.mp hc)
                · exact Or.inr hc
            · cases heq
              simp at h
        · cases heq
          simp at h
  · next e heq => simp at h

/-- The Finding produced for `exItem` (used to witness
`finding_nonempty_fields` at a concrete input). -/
def exFinding : Finding :=
  { timestamp := "t0"
    type := "gist"
    source := "g1"
    path := "notes.txt"
    url := "https://github.com/foo/acme.com-configs"
    matchedDomains := []
    credentials := ["Password Assignment"]
    snippet := "password = hunter2" }

theorem finding_nonempty_fields_witness :
    exFinding.credentials ≠ [] ∧
      (exFinding.matchedDomains ≠ [] ∨
        urlDomainMatch ["acme.com"] exItem = true) :=
  finding_nonempty_fields exEnv ["acme.com"] exItem exFinding (by decide)

/-- An environment whose content fetch always fails (network error during
content resolution). -/
def failEnv : Env where
  now := "t0"
  fetch := fun _ => .error "network failure"
  scanForDomains := fun c ds => .ok (ds.filter (fun d => strIncludes c d))
  detectCredentials := fun c =>
    .ok (if strIncludes c "password" then ["Password Assignment"] else [])

/-- A code-search item whose content must be fetched. -/
def exCodeItem : CandidateItem :=
  .code ⟨"foo/bar", "config.env", "https://github.com/foo/bar/blob/main/config.env",
         some "https://api.github.com/repositories/1/contents/config.env"⟩

/-- C7 — An error raised for a single item (content resolution or
detector) is caught at the item level: that item contributes no Finding
(none is fabricated), and the findings of the remaining items of the
tick are exactly those obtained without the failing item. -/
theorem item_error_yields_no_finding (env : Env) (domains : List String)
    (item : CandidateItem) (e : String) (pre post : List CandidateItem)
    (h : analyzeContentE env domains item = .error e) :
    analyzeContent env domains item = [] ∧
      analyzeAll env domains (pre ++ item :: post) =
        analyzeAll env domains pre ++ analyzeAll env domains post := by
  have h0 : analyzeContent env domains item = [] := by
    unfold analyzeContent
    rw [h]
  refine ⟨h0, ?_⟩
  simp [analyzeAll, List.flatMap_append, List.flatMap_cons, h0]

theorem item_error_yields_no_finding_witness :
    analyzeContent failEnv ["acme.com"] exCodeItem = [] ∧
      analyzeAll failEnv ["acme.com"] ([exItem] ++ exCodeItem :: [exItem]) =
        analyzeAll failEnv ["acme.com"] [exItem] ++
          analyzeAll failEnv ["acme.com"] [exItem] :=
  item_error_yields_no_finding failEnv ["acme.com"] exCodeItem
    "network failure" [exItem] [exItem] (by rfl)

/-- C2 — When every connector fails, the tick completes with
`itemsScanned = 0` and `findingsCount = 0` and the accumulated findings
unchanged (`check` is a total function of the connector outcomes: no
connector error propagates past its `catch`). -/
theorem tick_all_connectors_fail (env : Env) (domains : List String)
    (e1 e2 : String) (acc : List Finding) :
    check env domains (.error e1) (.error e2) acc = (⟨0, 0⟩, acc) := rfl

lemma processItems_eq (env : Env) (domains : List String) :
    ∀ (items : List CandidateItem) (t : Nat) (acc : List Finding),
      processItems env domains items t acc =
        (t + (analyzeAll env domains items).length,
          acc ++ analyzeAll env domains items) := by
  intro items
  induction items with
  | nil => intro t acc; simp [processItems, analyzeAll]
  | cons item rest ih =>
    intro t acc
    simp only [processItems, analyzeAll, List.flatMap_cons]
    by_cases h : (analyzeContent env domains item).length > 0
    · rw [if_pos h, ih]
      simp only [analyzeAll, Prod.mk.injEq, List.length_append,
        List.append_assoc]
      exact ⟨by omega, trivial⟩
    · have hz : (analyzeContent env domains item).length = 0 :=
        Nat.eq_zero_of_not_pos h
      have hnil := List.length_eq_zero.mp hz
      rw [if_neg h, ih]
      simp [analyzeAll, hnil]

lemma analyzeAll_length_all_one (env : Env) (domains : List String)
    (items : List CandidateItem)
    (h : ∀ item ∈ items, (analyzeContent env domains item).length = 1) :
    (analyzeAll env domains items).length = items.length := by
  induction items with
  | nil => simp [analyzeAll]
  | cons item rest ih =>
    have h1 := h item (by simp)
    have h2 := ih (fun i hi => h i (by simp [hi]))
    simp only [analyzeAll, List.flatMap_cons, List.length_append,
      List.length_cons] at h2 ⊢
    omega

/-- C4 — One connector failing does not suppress the results of the other:
with one connector failing and the other returning items that each
satisfy the decision rule, the tick reports exactly the Findings of
those items (count = number of items) and appends exactly them to the
accumulated findings; symmetrically in both directions. -/
theorem connector_failure_isolation (env : Env) (domains : List String)
    (e : String) (items : List CandidateItem) (acc : List Finding)
    (hall : ∀ item ∈ items, (analyzeContent env domains item).length = 1) :
    check env domains (.error e) (.ok items) acc =
      (⟨items.length, items.length⟩, acc ++ analyzeAll env domains items) ∧
    check env domains (.ok items) (.error e) acc =
      (⟨items.length, items.length⟩, acc ++ analyzeAll env domains items) := by
  have hp := processItems_eq env domains items
  have hl := analyzeAll_length_all_one env domains items hall
  unfold check
  simp [hp, hl]

theorem connector_failure_isolation_witness :
    check exEnv ["acme.com"] (.error "boom") (.ok [exItem]) [] =
      (⟨1, 1⟩, [] ++ analyzeAll exEnv ["acme.com"] [exItem]) ∧
    check exEnv ["acme.com"] (.ok [exItem]) (.error "boom") [] =
      (⟨1, 1⟩, [] ++ analyzeAll exEnv ["acme.com"] [exItem]) :=
  connector_failure_isolation exEnv ["acme.com"] "boom" [exItem] []
    (by decide)

/-- C6 — For a domain whose two code-search queries both answer, the
connector issues exactly the query `"<domain> password"` followed by
`"<domain> api_key"`, each with `per_page = 30`, and flattens both
result sets (in order) into CodeResult items; and for any oracle,
including one failing on some domains, the connector output decomposes
per domain, so a query failure for one domain does not abort the
queries of the remaining domains. -/
theorem code_search_two_queries_and_isolation
    (search : SearchReq → Except String SearchResp) (ds : List String)
    (d : String) (r1 r2 : SearchResp)
    (h1 : search ⟨d ++ " password", 30⟩ = .ok r1)
    (h2 : search ⟨d ++ " api_key", 30⟩ = .ok r2) :
    (scanDomain search d).2 = [⟨d ++ " password", 30⟩, ⟨d ++ " api_key", 30⟩] ∧
    (scanDomain search d).1 =
      (r1.items.getD []).map toCodeItem ++ (r2.items.getD []).map toCodeItem ∧
    (scanCodeSearch search ds).1 =
      ds.flatMap (fun d2 => (scanDomain search d2).1) ∧
    (scanCodeSearch search ds).2 =
      ds.flatMap (fun d2 => (scanDomain search d2).2) := by
  refine ⟨?_, ?_, ?_, ?_⟩
  · simp [scanDomain, h1, h2]
  · simp [scanDomain, h1, h2]
  · induction ds with
    | nil => simp [scanCodeSearch]
    | cons x rest ih => simp [scanCodeSearch, ih]
  · induction ds with
    | nil => simp [scanCodeSearch]
    | cons x rest ih => simp [scanCodeSearch, ih]

/-- A concrete search oracle: one hit for the `password` query of
`acme.com`, nothing for `api_key`, failure for every other request. -/
def exSearch : SearchReq → Except String SearchResp := fun req =>
  if req = ⟨"acme.com password", 30⟩ then
    .ok ⟨some [⟨"foo/bar", "config.env",
      "https://github.com/foo/bar/blob/main/config.env",
      "https://api.github.com/repositories/1/contents/config.env"⟩]⟩
  else if req = ⟨"acme.com api_key", 30⟩ then
    .ok ⟨some []⟩
  else .error "rate limited"

theorem code_search_two_queries_and_isolation_witness :
    (scanDomain exSearch "acme.com").2 =
      [⟨"acme.com password", 30⟩, ⟨"acme.com api_key", 30⟩] ∧
    (scanDomain exSearch "acme.com").1 =
      ((some [(⟨"foo/bar", "config.env",
          "https://github.com/foo/bar/blob/main/config.env",
          "https://api.github.com/repositories/1/contents/config.env"⟩ :
            RawCodeItem)] : Option (List RawCodeItem)).getD []).map toCodeItem
        ++ ((some [] : Option (List RawCodeItem)).getD []).map toCodeItem ∧
    (scanCodeSearch exSearch ["acme.com", "other.org"]).1 =
      (["acme.com", "other.org"] :
        List String).flatMap (fun d2 => (scanDomain exSearch d2).1) ∧
    (scanCodeSearch exSearch ["acme.com", "other.org"]).2 =
      (["acme.com", "other.org"] :
        List String).flatMap (fun d2 => (scanDomain exSearch d2).2) :=
  code_search_two_queries_and_isolation exSearch ["acme.com", "other.org"]
    "acme.com" ⟨some [⟨"foo/bar", "config.env",
      "https://github.com/foo/bar/blob/main/config.env",
      "https://api.github.com/repositories/1/contents/config.env"⟩]⟩
    ⟨some []⟩ (by rfl) (by rfl)

lemma flatMap_files_length (gs : List RawGist) :
    (gs.flatMap (fun g => g.files.map
      (fun f => CandidateItem.gist
        ⟨g.id, f.filename, g.htmlUrl, f.content⟩))).length =
      (gs.map (fun g => g.files.length)).sum := by
  induction gs with
  | nil => rfl
  | cons g rest ih => simp [List.flatMap_cons, ih]

/-- C8 — The gist connector issues exactly one request, for one page of
30 public gists, with no domain parameter; on success it produces one
GistResult per file of every returned gist (count = total number of
files) carrying the inline content of that file, and on failure it returns
the empty list. -/
theorem gist_connector_spec (getGists : GistReq → Except String (List RawGist))
    (gs : List RawGist) (e : String) :
    (scanGists getGists).2 = [⟨30⟩] ∧
    (getGists ⟨30⟩ = .ok gs →
      (scanGists getGists).1 =
        gs.flatMap (fun g => g.files.map
          (fun f => .gist ⟨g.id, f.filename, g.htmlUrl, f.content⟩)) ∧
      (scanGists getGists).1.length =
        (gs.map (fun g => g.files.length)).sum) ∧
    (getGists ⟨30⟩ = .error e → (scanGists getGists).1 = []) := by
  refine ⟨?_, fun hok => ⟨?_, ?_⟩, fun herr => ?_⟩
  · cases h : getGists ⟨30⟩ <;> simp [scanGists, h]
  · simp [scanGists, hok]
  · simp only [scanGists, hok]
    exact flatMap_files_length gs
  · simp [scanGists, herr]

/-- A concrete gist-listing oracle: two gists with one and two files. -/
def exGetGists : GistReq → Except String (List RawGist) := fun req =>
  if req = ⟨30⟩ then
    .ok [⟨"g1", "https://gist.github.com/g1", [⟨"a.txt", some "alpha"⟩]⟩,
         ⟨"g2", "https://gist.github.com/g2",
          [⟨"b.txt", some "beta"⟩, ⟨"c.txt", none⟩]⟩]
  else .error "bad request"

theorem gist_connector_spec_witness :
    (scanGists exGetGists).2 = [⟨30⟩] ∧
    (scanGists exGetGists).1 =
      ([⟨"g1", "https://gist.github.com/g1", [⟨"a.txt", some "alpha"⟩]⟩,
        ⟨"g2", "https://gist.github.com/g2",
         [⟨"b.txt", some "beta"⟩, ⟨"c.txt", none⟩]⟩] :
        List RawGist).flatMap (fun g => g.files.map
          (fun f => .gist ⟨g.id, f.filename, g.htmlUrl, f.content⟩)) ∧
    (scanGists exGetGists).1.length =
      (([⟨"g1", "https://gist.github.com/g1", [⟨"a.txt", some "alpha"⟩]⟩,
         ⟨"g2", "https://gist.github.com/g2",
          [⟨"b.txt", some "beta"⟩, ⟨"c.txt", none⟩]⟩] :
         List RawGist).map (fun g => g.files.length)).sum := by
  have h := gist_connector_spec exGetGists
    [⟨"g1", "https://gist.github.com/g1", [⟨"a.txt", some "alpha"⟩]⟩,
     ⟨"g2", "https://gist.github.com/g2",
      [⟨"b.txt", some "beta"⟩, ⟨"c.txt", none⟩]⟩] "unused"
  exact ⟨h.1, (h.2.1 (by rfl)).1, (h.2.1 (by rfl)).2⟩

/-- C5 — `start` with the run-once flag runs exactly one immediate tick,
prints the summary and arms no timer; without the flag it runs one
immediate tick and arms the recurring timer, which keeps executing
ticks (here: one firing opportunity executes one more tick) until
`stop` disarms it; in both modes the first tick happens immediately
rather than after a full interval. -/
theorem start_behaviour :
    start true initState =
      { isRunning := true, timerArmed := false, ticksExecuted := 1,
        summaryPrinted := true } ∧
    start false initState =
      { isRunning := true, timerArmed := true, ticksExecuted := 1,
        summaryPrinted := false } ∧
    timerFire (start true initState) = start true initState ∧
    timerFire (start false initState) =
      { isRunning := true, timerArmed := true, ticksExecuted := 2,
        summaryPrinted := false } ∧
    timerFire (stop (start false initState)) = stop (start false initState) := by
  decide

/-- C9 — `stop` clears `isRunning` and disarms the timer, and is
idempotent: `stop ∘ stop` has the same effect on the run state as a
single `stop`, so calling it when not running (or twice) is safe. -/
theorem stop_idempotent (s : RunState) :
    (stop s).isRunning = false ∧ (stop s).timerArmed = false ∧
      stop (stop s) = stop s := by
  by_cases h : s.timerArmed <;> simp [stop, h]

end LeakScanner
